import Mathlib

/-
Verification of the OECD SDMX puller (src/pull_oecd.py).

The development shallowly embeds the dimension-resolution and
key-construction engine of the puller: the retrying HTTP fetcher
(only its control flow; the network is an oracle parameter), the
structure-document fetch with its side-file cache, the code matcher,
the key builder and the observation decoder.  Python strings are
modelled as Lean String values, with the handful of Python string
methods the source uses re-implemented by structural recursion over
the character list so that every definition evaluates inside the
kernel.
-/

namespace OecdPull

/-- Characters of a string; Python strings are sequences of characters. -/
def chars (s : String) : List Char := s.data

/-- Rebuild a string from its characters. -/
def ofChars (cs : List Char) : String := ⟨cs⟩

/-- Python str.lower, ASCII range (all strings in the source are ASCII). -/
def pyLower (s : String) : String := ofChars (s.data.map Char.toLower)

/-- Python str.upper, ASCII range. -/
def pyUpper (s : String) : String := ofChars (s.data.map Char.toUpper)

/-- Helper for splitting on a single separator character. -/
def splitCharAux (sep : Char) (cur : List Char) : List Char → List (List Char)
  | [] => [cur.reverse]
  | c :: rest =>
    if c = sep then cur.reverse :: splitCharAux sep [] rest
    else splitCharAux sep (c :: cur) rest

/-- Python str.split(sep) for a one-character separator, as used by the
source for ".", ":", "," and "@". -/
def pySplit (s : String) (sep : Char) : List String :=
  (splitCharAux sep [] s.data).map ofChars

/-- Python sep.join(parts). -/
def pyJoin (sep : String) : List String → String
  | [] => ""
  | [x] => x
  | x :: y :: rest => x ++ sep ++ pyJoin sep (y :: rest)

/-- Python str.replace(old, new) for one-character old and new, as used by
the source for replacing hyphens with spaces. -/
def pyReplaceChar (s : String) (old new : Char) : String :=
  ofChars (s.data.map (fun c => if c = old then new else c))

/-- Helper splitting on whitespace characters. -/
def splitWsAux (cur : List Char) : List Char → List (List Char)
  | [] => [cur.reverse]
  | c :: rest =>
    if c.isWhitespace then cur.reverse :: splitWsAux [] rest
    else splitWsAux (c :: cur) rest

/-- Python str.split() with no argument: split on whitespace runs and drop
empty pieces. -/
def pyWhitespaceSplit (s : String) : List String :=
  ((splitWsAux [] s.data).map ofChars).filter (fun t => t ≠ "")

/-- Boolean prefix test on character lists. -/
def isPrefixChars : List Char → List Char → Bool
  | [], _ => true
  | _ :: _, [] => false
  | a :: as, b :: bs => a = b && isPrefixChars as bs

/-- Boolean infix test on character lists. -/
def isInfixChars (pat : List Char) : List Char → Bool
  | [] => pat.isEmpty
  | c :: rest => isPrefixChars pat (c :: rest) || isInfixChars pat rest

/-- Python membership test: pat in s. -/
def pyContains (s pat : String) : Bool := isInfixChars pat.data s.data

/-- Python str.isdigit (ASCII digits): non-empty and all digits. -/
def pyIsDigit (s : String) : Bool := !s.data.isEmpty && s.data.all Char.isDigit

/-- Python int(s) for a string of decimal digits. -/
def pyToNat (s : String) : Nat :=
  s.data.foldl (fun n c => n * 10 + (c.toNat - 48)) 0

/-- Python str.strip(): drop leading and trailing whitespace. -/
def pyStrip (s : String) : String :=
  ofChars (((s.data.dropWhile Char.isWhitespace).reverse.dropWhile
    Char.isWhitespace).reverse)

/-- Embeds _is_truthy (pull_oecd.py line 246): str(value).strip().lower()
is one of 1, true, yes, y. -/
def isTruthy (value : String) : Bool :=
  ["1", "true", "yes", "y"].contains (pyLower (pyStrip value))

/-- An HTTP response as the retry loop observes it: status code, body text
and the optional Retry-After header. -/
structure HttpResponse where
  status : Nat
  body : String
  retryAfter : Option String
deriving DecidableEq

/-- Embeds the sleep computation of _get_json_with_retry and
_get_text_with_retry (pull_oecd.py lines 120-122 and 141-143):
int(Retry-After) when present and all digits, else 5 * 2 ^ attempt,
then clamped below by 10. -/
def waitSeconds (retryAfter : Option String) (attempt : Nat) : Nat :=
  let base :=
    match retryAfter with
    | some s => if s ≠ "" ∧ pyIsDigit s = true then pyToNat s else 5 * 2 ^ attempt
    | none => 5 * 2 ^ attempt
  max base 10

deriving instance DecidableEq for Except

/-- Outcome of one retrying GET: the body or the final HTTP error status,
the number of network requests issued, and the list of sleeps performed. -/
structure FetchOutcome where
  result : Except Nat String
  calls : Nat
  sleeps : List Nat
deriving DecidableEq

/-- Embeds the retry loop of _get_text_with_retry (pull_oecd.py lines
131-149; _get_json_with_retry is identical up to the final .json() parse).
The network is an oracle from attempt index and url to a response; anon is
the oracle seen by the fresh anonymous session used on a 401 when
credentials were configured.  Recursion is on the remaining loop
iterations (fuel); attempt is the Python loop variable. -/
def getTextLoop (oracle anon : Nat → String → HttpResponse) (hasAuth : Bool)
    (url : String) (maxRetries : Nat) : Nat → Nat → FetchOutcome
  | _, 0 => ⟨Except.error 0, 0, []⟩
  | attempt, fuel + 1 =>
    let r0 := oracle attempt url
    let r := if r0.status = 401 ∧ hasAuth = true then anon attempt url else r0
    let c : Nat := if r0.status = 401 ∧ hasAuth = true then 2 else 1
    if r.status = 429 ∧ attempt + 1 < maxRetries then
      let w := waitSeconds r.retryAfter attempt
      let rest := getTextLoop oracle anon hasAuth url maxRetries (attempt + 1) fuel
      ⟨rest.result, c + rest.calls, w :: rest.sleeps⟩
    else if 400 ≤ r.status then ⟨Except.error r.status, c, []⟩
    else ⟨Except.ok r.body, c, []⟩

/-- Embeds _get_text_with_retry: run the loop from attempt 0 with
maxRetries iterations of fuel. -/
def getTextWithRetry (oracle anon : Nat → String → HttpResponse)
    (hasAuth : Bool) (url : String) (maxRetries : Nat) : FetchOutcome :=
  getTextLoop oracle anon hasAuth url maxRetries 0 maxRetries

/-- Parsed flow reference, embedding the dict built by _parse_flow_ref
(pull_oecd.py lines 186-200). -/
structure FlowParts where
  agencyId : String
  version : String
  dsdId : Option String
  dataflowId : Option String
deriving DecidableEq

/-- Embeds _parse_flow_ref: split on commas into exactly three parts, then
split the middle part at the first at-sign into dsd id and dataflow id. -/
def parseFlowRef (flowRef : String) : Option FlowParts :=
  match pySplit flowRef ',' with
  | [agencyId, middle, version] =>
    match pySplit middle '@' with
    | [_] => some ⟨agencyId, version, none, none⟩
    | d :: rest => some ⟨agencyId, version, some d, some (pyJoin "@" rest)⟩
    | [] => some ⟨agencyId, version, none, none⟩
  | _ => none

/-- Embeds _datastructure_url_from_ref (pull_oecd.py lines 172-176). -/
def dsUrlComma (agencyId dsdId version : String) : String :=
  "https://sdmx.oecd.org/public/rest/datastructure/" ++ agencyId ++ ","
    ++ dsdId ++ "," ++ version

/-- Embeds _datastructure_url_from_ref_slash with a version
(pull_oecd.py lines 179-183). -/
def dsUrlSlashV (agencyId dsdId version : String) : String :=
  "https://sdmx.oecd.org/public/rest/datastructure/" ++ agencyId ++ "/"
    ++ dsdId ++ "/" ++ version

/-- Embeds _datastructure_url_from_ref_slash without a version. -/
def dsUrlSlash (agencyId dsdId : String) : String :=
  "https://sdmx.oecd.org/public/rest/datastructure/" ++ agencyId ++ "/" ++ dsdId

/-- Embeds _structure_url (pull_oecd.py line 164). -/
def structureUrl (flowRef : String) : String :=
  "https://sdmx.oecd.org/public/rest/datastructure/" ++ flowRef

/-- Embeds _dataflow_list_url (pull_oecd.py line 168). -/
def dataflowListUrl : String := "https://sdmx.oecd.org/public/rest/dataflow"

/-- Errors fetch_structure can raise: an HTTP error with its status, or a
ValueError with its message. -/
inductive FetchErr where
  | http (status : Nat)
  | valueError (msg : String)
deriving DecidableEq

/-- Result of trying a list of candidate datastructure URLs in order, as
the loops of fetch_structure do (pull_oecd.py lines 299-320 and 364-379):
first success wins, a non-404 HTTP error is re-raised at once, and
exhaustion remembers the last (404) error. -/
inductive TryOutcome where
  | success (body : String) (calls : Nat)
  | raised (status : Nat) (calls : Nat)
  | exhausted (lastError : Option Nat) (calls : Nat)
deriving DecidableEq

/-- Embeds the try/except loop over candidate URLs inside fetch_structure;
acc accumulates network calls, lastError the last 404. -/
def tryUrls (oracle anon : Nat → String → HttpResponse) (hasAuth : Bool) :
    List String → Nat → Option Nat → TryOutcome
  | [], acc, lastError => .exhausted lastError acc
  | url :: rest, acc, _lastError =>
    let out := getTextWithRetry oracle anon hasAuth url 10
    match out.result with
    | Except.ok b => .success b (acc + out.calls)
    | Except.error s =>
      if s = 404 then tryUrls oracle anon hasAuth rest (acc + out.calls) (some s)
      else .raised s (acc + out.calls)

/-- The DSD reference extracted from a dataflow-list document by
_extract_dsd_ref or _extract_dsd_ref_for_dataflow (pull_oecd.py lines
250-285): XML attributes may be absent, so each field is optional. -/
structure DsdRefR where
  agencyId : Option String
  dsdId : Option String
  version : Option String
deriving DecidableEq

/-- Embeds the tail of fetch_structure (pull_oecd.py lines 324-382), the
path taken when the flow reference did not carry a usable DSD id: try the
plain structure URL (returning WITHOUT writing the cache on success), on a
404 fetch the dataflow list, resolve a DSD reference from it and try the
three datastructure URL shapes, caching on success.  XML extraction of the
DSD reference (_extract_dsd_ref_for_dataflow and _extract_dsd_ref) is
abstracted as the two oracle functions extractForDf and extractAny.
Returns the xml text (the real function returns _parse_structure_xml of
it, a pure function of the text), the cache contents after the call, and
the number of network requests issued. -/
def fetchStructureFallback (oracle anon : Nat → String → HttpResponse)
    (hasAuth : Bool) (cache : Option String) (flowRef : String)
    (flowParts : Option FlowParts)
    (extractForDf : String → String → Option DsdRefR)
    (extractAny : String → Option DsdRefR) (calls0 : Nat) :
    Except FetchErr String × Option String × Nat :=
  let out1 := getTextWithRetry oracle anon hasAuth (structureUrl flowRef) 10
  match out1.result with
  | Except.ok b => (Except.ok b, cache, calls0 + out1.calls)
  | Except.error s =>
    if s ≠ 404 then (Except.error (.http s), cache, calls0 + out1.calls)
    else
      let out2 := getTextWithRetry oracle anon hasAuth dataflowListUrl 10
      match out2.result with
      | Except.error s2 =>
        (Except.error (.http s2), cache, calls0 + out1.calls + out2.calls)
      | Except.ok xml =>
        let calls1 := calls0 + out1.calls + out2.calls
        let ref0 :=
          match flowParts with
          | some p =>
            match p.dataflowId with
            | some dfid => if dfid = "" then none else extractForDf dfid xml
            | none => none
          | none => none
        let ref1 := match ref0 with
          | some r => some r
          | none => extractAny xml
        match ref1 with
        | none =>
          (Except.error (.valueError
            "Unable to resolve DSD reference from dataflow response"),
           cache, calls1)
        | some r =>
          if r.agencyId.getD "" = "" ∨ r.dsdId.getD "" = ""
              ∨ r.version.getD "" = "" then
            (Except.error (.valueError
              "Unable to resolve DSD reference from dataflow response"),
             cache, calls1)
          else
            let a := r.agencyId.getD ""
            let d := r.dsdId.getD ""
            let v := r.version.getD ""
            match tryUrls oracle anon hasAuth
                [dsUrlComma a d v, dsUrlSlashV a d v, dsUrlSlash a d] 0 none with
            | .success b c3 => (Except.ok b, some b, calls1 + c3)
            | .raised s3 c3 => (Except.error (.http s3), cache, calls1 + c3)
            | .exhausted (some e) c3 => (Except.error (.http e), cache, calls1 + c3)
            | .exhausted none c3 =>
              (Except.error (.valueError "Unable to retrieve datastructure"),
               cache, calls1 + c3)

/-- Embeds the cache-miss body of fetch_structure (pull_oecd.py lines
294-382): when the flow reference parses and carries a non-empty DSD id,
try the agency x version x url-shape cascade, caching the document on
success; a non-404 error or an exhausted cascade with a recorded error is
raised; otherwise fall through to fetchStructureFallback. -/
def fetchStructureFresh (oracle anon : Nat → String → HttpResponse)
    (hasAuth : Bool) (cache : Option String) (flowRef : String)
    (extractForDf : String → String → Option DsdRefR)
    (extractAny : String → Option DsdRefR) :
    Except FetchErr String × Option String × Nat :=
  let flowParts := parseFlowRef flowRef
  match flowParts with
  | some p =>
    match p.dsdId with
    | some d =>
      if d = "" then
        fetchStructureFallback oracle anon hasAuth cache flowRef flowParts
          extractForDf extractAny 0
      else
        let urls :=
          [dsUrlComma p.agencyId d p.version, dsUrlSlashV p.agencyId d p.version,
           dsUrlSlash p.agencyId d,
           dsUrlComma p.agencyId d "latest", dsUrlSlashV p.agencyId d "latest",
           dsUrlSlash p.agencyId d,
           dsUrlComma "OECD" d p.version, dsUrlSlashV "OECD" d p.version,
           dsUrlSlash "OECD" d,
           dsUrlComma "OECD" d "latest", dsUrlSlashV "OECD" d "latest",
           dsUrlSlash "OECD" d]
        match tryUrls oracle anon hasAuth urls 0 none with
        | .success b c => (Except.ok b, some b, c)
        | .raised s c => (Except.error (.http s), cache, c)
        | .exhausted (some e) c => (Except.error (.http e), cache, c)
        | .exhausted none c =>
          fetchStructureFallback oracle anon hasAuth cache flowRef flowParts
            extractForDf extractAny c
    | none =>
      fetchStructureFallback oracle anon hasAuth cache flowRef flowParts
        extractForDf extractAny 0
  | none =>
    fetchStructureFallback oracle anon hasAuth cache flowRef flowParts
      extractForDf extractAny 0

/-- Embeds fetch_structure (pull_oecd.py lines 288-382).  The side-file
cache is the Option String parameter; the OECD_STRUCTURE_REFRESH config
string is refreshFlag.  When the cache file exists and the refresh flag is
not truthy, the cached text is returned with zero network calls. -/
def fetchStructure (oracle anon : Nat → String → HttpResponse)
    (hasAuth : Bool) (refreshFlag : String) (cache : Option String)
    (flowRef : String) (extractForDf : String → String → Option DsdRefR)
    (extractAny : String → Option DsdRefR) :
    Except FetchErr String × Option String × Nat :=
  match cache with
  | some t =>
    if isTruthy refreshFlag = true then
      fetchStructureFresh oracle anon hasAuth (some t) flowRef extractForDf extractAny
    else (Except.ok t, some t, 0)
  | none =>
    fetchStructureFresh oracle anon hasAuth none flowRef extractForDf extractAny

/-- One catalog entry of a dimension, as built by _parse_structure_xml
(pull_oecd.py lines 220-224): the code id (required attribute on Code
elements) and the optional human label. -/
structure CatCode where
  code : String
  label : Option String
deriving DecidableEq

/-- Embeds _normalize_label (pull_oecd.py lines 447-450): empty for a
missing or empty text, else lowercase, hyphens to spaces, whitespace
collapsed. -/
def normalizeLabel (text : Option String) : String :=
  match text with
  | none => ""
  | some t => pyJoin " " (pyWhitespaceSplit (pyReplaceChar (pyLower t) '-' ' '))

/-- The preferred-code test of _find_code_by_label (pull_oecd.py lines
466-470): the code id, uppercased, is among the uppercased preferred
codes. -/
def prefPred (preferredCodes : List String) (v : CatCode) : Bool :=
  (preferredCodes.map pyUpper).contains (pyUpper v.code)

/-- The label-stage test of _find_code_by_label (pull_oecd.py lines
472-478): some normalized pattern is non-empty and either occurs in the
normalized label or equals the lowercased code string. -/
def labelPred (patterns : List String) (v : CatCode) : Bool :=
  (patterns.map (fun p => normalizeLabel (some p))).any (fun p =>
    p ≠ "" && (pyContains (normalizeLabel v.label) p || p == pyLower v.code))

/-- The diagnostic sample of _find_code_by_label (pull_oecd.py lines
483-485): the first five codes as code:label, comma separated; a missing
label renders as None exactly as a Python f-string does. -/
def sampleOf (values : List CatCode) : String :=
  pyJoin ", " ((values.take 5).map (fun v => v.code ++ ":" ++ (v.label.getD "None")))

/-- The two ValueError shapes _find_code_by_label can raise: the dimension
was absent or empty (pull_oecd.py line 464, no candidate sample in the
message) or nothing matched (lines 486-488, message carries the sample). -/
inductive FindCodeError where
  | dimNotFound (dimId : String)
  | noMatch (dimId : String) (sample : String)
deriving DecidableEq

/-- Embeds _find_code_by_label (pull_oecd.py lines 453-488): look the
dimension up (absent means empty list), handle the empty case, then the
preferred-code stage (skipped for an empty preferred list, first match in
declared order wins), then the label stage, then the allowMissing
fallback or the no-match error. -/
def findCodeByLabel (dimValues : List (String × List CatCode)) (dimId : String)
    (patterns : List String) (preferredCodes : List String)
    (allowMissing : Bool) : Except FindCodeError (Option String) :=
  match (dimValues.lookup dimId).getD [] with
  | [] =>
    if allowMissing then Except.ok none
    else Except.error (.dimNotFound dimId)
  | v0 :: vs =>
    match (if preferredCodes.isEmpty then none
           else (v0 :: vs).find? (prefPred preferredCodes)) with
    | some v => Except.ok (some v.code)
    | none =>
      match (v0 :: vs).find? (labelPred patterns) with
      | some v => Except.ok (some v.code)
      | none =>
        if allowMissing then Except.ok none
        else Except.error (.noMatch dimId (sampleOf (v0 :: vs)))

/-- The label-stage condition exactly as the specification words it: the
normalized label contains a (normalized) pattern, or the RAW code string
equals the pattern.  Kept separate from labelPred, which lowercases the
code before comparing, to compare the two. -/
def claimLabelCond (patterns : List String) (v : CatCode) : Bool :=
  (patterns.map (fun p => normalizeLabel (some p))).any (fun p =>
    pyContains (normalizeLabel v.label) p || p == v.code)

/-- One series dimension as fetch_structure returns it (pull_oecd.py
lines 231-236): its id and its catalog codes. -/
structure SeriesDim where
  id : String
  values : List CatCode
deriving DecidableEq

/-- An override for one dimension of the key: a single code or a
collection of codes (joined with + in the key). -/
inductive OverrideVal where
  | single (s : String)
  | multi (xs : List String)
deriving DecidableEq

/-- The key segment an override contributes (pull_oecd.py lines 433-436):
a collection is joined with +, a single value is used as is. -/
def overridePart : OverrideVal → String
  | .single s => s
  | .multi xs => pyJoin "+" xs

/-- The key-segment loop of _build_key (pull_oecd.py lines 427-436): for
each dimension paired with its template token, take the override looked
up by dimension id when present, else the template token. -/
def buildKeyParts (overrides : List (String × OverrideVal)) :
    List SeriesDim → List String → List String
  | [], _ => []
  | _ :: _, [] => []
  | dim :: dims, tok :: toks =>
    (match overrides.lookup dim.id with
     | none => tok
     | some v => overridePart v) :: buildKeyParts overrides dims toks

/-- Embeds _build_key (pull_oecd.py lines 422-437): split the template on
dots, fail when the segment count differs from the dimension count, else
join the per-dimension segments with dots. -/
def buildKey (seriesDims : List SeriesDim) (keyTemplate : String)
    (overrides : List (String × OverrideVal)) : Except String String :=
  let templateParts := pySplit keyTemplate '.'
  if templateParts.length = seriesDims.length then
    Except.ok (pyJoin "." (buildKeyParts overrides seriesDims templateParts))
  else Except.error "Key template length does not match series dimensions"

/-- An observation value cell of the SDMX JSON payload: a scalar or a
list. -/
inductive ObsCell (α : Type) where
  | scalar (a : α)
  | arr (xs : List α)
deriving DecidableEq

/-- The value put on a row (pull_oecd.py line 416): the first element when
the cell is a non-empty list, else the cell itself. -/
def cellValue {α : Type} : ObsCell α → ObsCell α
  | .arr (x :: _) => .scalar x
  | c => c

/-- Embeds _index_to_code (pull_oecd.py lines 385-389): look the dimension
up (absent means empty list); a negative or too-large index yields none,
else the (code, label) pair at that position.  Payload values come from
v.get of the JSON, so code and label are each optional. -/
def indexToCode (dimValues : List (String × List (Option String × Option String)))
    (dimId : String) (index : Int) : Option (Option String × Option String) :=
  let values := (dimValues.lookup dimId).getD []
  if h : 0 ≤ index ∧ index.toNat < values.length then
    some (values.get ⟨index.toNat, h.2⟩)
  else none

/-- The output column name for a dimension (pull_oecd.py line 413): the
rename-map entry when present, else the lowercased dimension id. -/
def outName (dimRename : List (String × String)) (dimId : String) : String :=
  (dimRename.lookup dimId).getD (pyLower dimId)

/-- Python dict assignment row[k] = v on an insertion-ordered dict:
when the key is already present its value is replaced in place (keeping
the original position), else the new key is appended.  This is how the
row dict of _sdmx_json_to_tidy behaves when dim_rename maps two
dimension ids to the same output name: the later assignment overwrites
the earlier column. -/
def dictInsert (row : List (String × Option String)) (k : String)
    (v : Option String) : List (String × Option String) :=
  if (row.map Prod.fst).contains k then
    row.map (fun p => if p.1 = k then (k, v) else p)
  else row ++ [(k, v)]

/-- The per-row column loop of _sdmx_json_to_tidy (pull_oecd.py lines
411-415) over the zipped (dimension id, index) pairs, threading the row
dict built so far (row starts empty; the value key is assigned after
this loop and is kept as the separate value field of TidyRow).  When
_index_to_code returns None the Python caller unpacks it with
code, label = ... and a TypeError is raised; that crash is the error
case here. -/
def rowCols (dimValues : List (String × List (Option String × Option String)))
    (dimRename : List (String × String))
    (row : List (String × Option String)) :
    List (String × Int) → Except String (List (String × Option String))
  | [] => Except.ok row
  | (dimId, idx) :: rest =>
    match indexToCode dimValues dimId idx with
    | none => Except.error "TypeError: cannot unpack non-sequence NoneType"
    | some (code, label) =>
      rowCols dimValues dimRename
        (dictInsert (dictInsert row (outName dimRename dimId) code)
          (outName dimRename dimId ++ "_label") label) rest

/-- One tidy output row: the decoded (code, label) columns in dimension
order plus the observation value. -/
structure TidyRow (α : Type) where
  cols : List (String × Option String)
  value : ObsCell α
deriving DecidableEq

/-- The SDMX-JSON data payload as _sdmx_json_to_tidy reads it: the
observation dimensions (id and position-addressed values, in declared
order) and the sparse observation map.  Keys, colon-delimited integer
strings in the JSON, are modelled post-parse as integer lists. -/
structure Payload (α : Type) where
  obsDims : List (String × List (Option String × Option String))
  observations : List (List Int × ObsCell α)
deriving DecidableEq

/-- The row loop of _sdmx_json_to_tidy (pull_oecd.py lines 407-417): one
row per observation entry, in map order; an exception from a row aborts
the whole decode. -/
def tidyRows {α : Type}
    (dimValues : List (String × List (Option String × Option String)))
    (dimRename : List (String × String)) (dimIds : List String) :
    List (List Int × ObsCell α) → Except String (List (TidyRow α))
  | [] => Except.ok []
  | (key, obs) :: rest =>
    match rowCols dimValues dimRename [] (dimIds.zip key) with
    | Except.error e => Except.error e
    | Except.ok cols =>
      match tidyRows dimValues dimRename dimIds rest with
      | Except.error e => Except.error e
      | Except.ok rows => Except.ok (⟨cols, cellValue obs⟩ :: rows)

/-- Embeds _sdmx_json_to_tidy (pull_oecd.py lines 392-419): build the
dimension-value map and the ordered dimension id list from the payload
structure, then decode each observation entry into a row.  The dict of
dimension values is the association list obsDims itself (ids are unique
in a payload); dim_ids is its id projection. -/
def sdmxJsonToTidy {α : Type} (payload : Payload α)
    (dimRename : List (String × String)) : Except String (List (TidyRow α)) :=
  tidyRows payload.obsDims dimRename (payload.obsDims.map Prod.fst)
    payload.observations

/-- Network oracle for the rate-limit example: the first attempt is a 429
carrying Retry-After 3, every later attempt succeeds. -/
def c2Oracle : Nat → String → HttpResponse := fun attempt _ =>
  if attempt = 0 then ⟨429, "slow down", some "3"⟩ else ⟨200, "ok", none⟩

/-- Network oracle that always answers 200 with a fixed document. -/
def c3Oracle : Nat → String → HttpResponse := fun _ _ => ⟨200, "XMLBODY", none⟩

/-- Trivial DSD-reference extractor (dataflow path never consulted in the
instances using it). -/
def noExtractF : String → String → Option DsdRefR := fun _ _ => none

/-- Trivial DSD-reference extractor for the anonymous variant. -/
def noExtractA : String → Option DsdRefR := fun _ => none

/-- The two-dimension example catalog of the specification. -/
def exDims : List SeriesDim :=
  [⟨"FREQ", [⟨"A", some "Annual"⟩, ⟨"Q", some "Quarterly"⟩]⟩,
   ⟨"REF_AREA", [⟨"US", some "United States"⟩, ⟨"CA", some "Canada"⟩]⟩]

/-- The example override set: REF_AREA overridden by the union US+CA. -/
def exOverrides : List (String × OverrideVal) := [("REF_AREA", .multi ["US", "CA"])]

/-- Two observation dimensions used to exercise decoder arity handling. -/
def c10Dims : List (String × List (Option String × Option String)) :=
  [("A", [(some "x", some "X")]), ("B", [(some "y", some "Y")])]

/-- buildKeyParts is the zipWith of the override-or-template chooser over
dimensions and template tokens. -/
theorem buildKeyParts_eq_zipWith (ov : List (String × OverrideVal)) :
    ∀ (dims : List SeriesDim) (toks : List String),
    buildKeyParts ov dims toks =
      List.zipWith (fun (d : SeriesDim) (tok : String) =>
        match ov.lookup d.id with
        | none => tok
        | some v => overridePart v) dims toks
  | [], _ => by simp [buildKeyParts]
  | _ :: _, [] => by simp [buildKeyParts]
  | d :: dims, t :: toks => by
    simpa [buildKeyParts] using buildKeyParts_eq_zipWith ov dims toks

/-- buildKeyParts only consults the override map through lookup, so
lookup-equal override maps give the same segments. -/
theorem buildKeyParts_lookup_invariant (ov1 ov2 : List (String × OverrideVal))
    (h : ∀ k, ov1.lookup k = ov2.lookup k) (dims : List SeriesDim)
    (toks : List String) :
    buildKeyParts ov1 dims toks = buildKeyParts ov2 dims toks := by
  simp [buildKeyParts_eq_zipWith, h]

/-- C4.  Key builder postcondition: with a template of exactly as many
tokens as there are catalog dimensions, _build_key returns the dot-join
of one segment per dimension, in catalog order: the override for that
dimension id when present (a collection joined with +), else the template
token; the segment list has exactly the dimension count, and the result
only depends on the override map through lookup, not on its iteration
order. -/
theorem buildKey_postcondition (dims : List SeriesDim) (t : String)
    (ov : List (String × OverrideVal))
    (h : (pySplit t '.').length = dims.length) :
    buildKey dims t ov =
      Except.ok (pyJoin "." (List.zipWith (fun (d : SeriesDim) (tok : String) =>
        match ov.lookup d.id with
        | none => tok
        | some v => overridePart v) dims (pySplit t '.'))) ∧
    (buildKeyParts ov dims (pySplit t '.')).length = dims.length ∧
    (∀ ov2 : List (String × OverrideVal), (∀ k, ov.lookup k = ov2.lookup k) →
      buildKey dims t ov = buildKey dims t ov2) := by
  refine ⟨?_, ?_, ?_⟩
  · simp [buildKey, h, buildKeyParts_eq_zipWith]
  · simp [buildKeyParts_eq_zipWith, h]
  · intro ov2 hl
    simp [buildKey, buildKeyParts_lookup_invariant ov ov2 hl]

/-- Witness for C4 at the specification example: catalog FREQ, REF_AREA,
template A.US, override REF_AREA to US+CA gives the key A.US+CA. -/
theorem buildKey_postcondition_witness :
    (pySplit "A.US" '.').length = exDims.length ∧
    buildKey exDims "A.US" exOverrides = Except.ok "A.US+CA" := by
  refine ⟨by decide, ?_⟩
  rw [(buildKey_postcondition exDims "A.US" exOverrides (by decide)).1]
  decide

/-- C5.  Key construction succeeds exactly when the template segment
count equals the catalog dimension count, and on a mismatch it returns
the length-mismatch ValueError and no key. -/
theorem buildKey_error_iff (dims : List SeriesDim) (t : String)
    (ov : List (String × OverrideVal)) :
    ((∃ k, buildKey dims t ov = Except.ok k) ↔
      (pySplit t '.').length = dims.length) ∧
    ((pySplit t '.').length ≠ dims.length →
      buildKey dims t ov =
        Except.error "Key template length does not match series dimensions") := by
  constructor
  · constructor
    · intro hk
      by_contra hne
      simp [buildKey, hne] at hk
    · intro hlen
      refine ⟨pyJoin "." (buildKeyParts ov dims (pySplit t '.')), ?_⟩
      simp [buildKey, hlen]
  · intro hne
    simp [buildKey, hne]

/-- Witness for C5: a one-segment template against the two-dimension
example catalog fails with the mismatch error, and the example template
A.US succeeds. -/
theorem buildKey_error_iff_witness :
    buildKey exDims "A" [] =
      Except.error "Key template length does not match series dimensions" ∧
    ((∃ k, buildKey exDims "A.US" [] = Except.ok k) ↔
      (pySplit "A.US" '.').length = exDims.length) :=
  ⟨(buildKey_error_iff exDims "A" []).2 (by decide),
   (buildKey_error_iff exDims "A.US" []).1⟩

/-- C1.  The observation decoder does NOT tolerate an out-of-range index:
_index_to_code returns None for index 1 into the single-code FREQ
dimension and the caller unpacks that None, so the decode raises a
TypeError instead of producing a row with empty code and label.  This
evaluates the embedded decoder at the failing input. -/
theorem decoder_out_of_range_raises :
    sdmxJsonToTidy (α := Int)
      ⟨[("FREQ", [(some "A", some "Annual")])], [([1], .arr [42])]⟩ [] =
      Except.error "TypeError: cannot unpack non-sequence NoneType" ∧
    sdmxJsonToTidy (α := Int)
      ⟨[("FREQ", [(some "A", some "Annual")])], [([0], .arr [42])]⟩ [] =
      Except.ok [⟨[("freq", some "A"), ("freq_label", some "Annual")],
        .scalar 42⟩] := by decide

/-- C6.  Preferred-code precedence: whenever the preferred-code list is
non-empty and some catalog code matches it case-insensitively, the
matcher returns the first such code — for every pattern list, so a
preferred-code hit always beats any label-pattern match. -/
theorem findCode_preferred_precedence (dimValues : List (String × List CatCode))
    (dimId : String) (patterns preferredCodes : List String)
    (allowMissing : Bool) (v : CatCode) (hne : preferredCodes ≠ [])
    (hfind : ((dimValues.lookup dimId).getD []).find? (prefPred preferredCodes)
      = some v) :
    findCodeByLabel dimValues dimId patterns preferredCodes allowMissing =
      Except.ok (some v.code) := by
  rcases hv : (dimValues.lookup dimId).getD [] with _ | ⟨v0, vs⟩
  · rw [hv] at hfind
    simp at hfind
  · rw [hv] at hfind
    have hpe : preferredCodes.isEmpty = false := by
      cases preferredCodes with
      | nil => exact absurd rfl hne
      | cons a as => rfl
    simp [findCodeByLabel, hv, hpe, hfind]

/-- Witness for C6: the label pattern would match code A first, but the
preferred code N wins. -/
theorem findCode_preferred_precedence_witness :
    findCodeByLabel [("CONS", [⟨"A", some "non consolidated"⟩, ⟨"N", some "other"⟩])]
      "CONS" ["non consolidated"] ["N"] false = Except.ok (some "N") ∧
    labelPred ["non consolidated"] ⟨"A", some "non consolidated"⟩ = true := by
  constructor
  · exact findCode_preferred_precedence
      [("CONS", [⟨"A", some "non consolidated"⟩, ⟨"N", some "other"⟩])] "CONS"
      ["non consolidated"] ["N"] false ⟨"N", some "other"⟩ (by decide) (by decide)
  · decide

/-- C7.  When the dimension is non-empty but neither a preferred code nor
a label pattern matches any of its codes, the matcher returns none under
allowMissing and otherwise fails with the no-match error carrying the
code:label sample of the first five candidates. -/
theorem findCode_no_match (dimValues : List (String × List CatCode))
    (dimId : String) (patterns preferredCodes : List String) (v0 : CatCode)
    (vs : List CatCode) (hv : (dimValues.lookup dimId).getD [] = v0 :: vs)
    (hpref : ∀ w ∈ v0 :: vs, prefPred preferredCodes w = false)
    (hlab : ∀ w ∈ v0 :: vs, labelPred patterns w = false) :
    findCodeByLabel dimValues dimId patterns preferredCodes true = Except.ok none ∧
    findCodeByLabel dimValues dimId patterns preferredCodes false =
      Except.error (.noMatch dimId (sampleOf (v0 :: vs))) := by
  have hfp : (v0 :: vs).find? (prefPred preferredCodes) = none :=
    List.find?_eq_none.mpr (fun x hx => by simp [hpref x hx])
  have hfl : (v0 :: vs).find? (labelPred patterns) = none :=
    List.find?_eq_none.mpr (fun x hx => by simp [hlab x hx])
  constructor <;> simp [findCodeByLabel, hv, hfp, hfl]

/-- Witness for C7 at the specification example: patterns for
non-consolidated and preferred codes N, NC against the single code
(X, Gross basis) produce the no-match error listing X:Gross basis, and
none under allowMissing. -/
theorem findCode_no_match_witness :
    findCodeByLabel [("CONSOLIDATION", [⟨"X", some "Gross basis"⟩])] "CONSOLIDATION"
      ["non consolidated", "non-consolidated"] ["N", "NC"] false =
      Except.error (.noMatch "CONSOLIDATION" "X:Gross basis") ∧
    findCodeByLabel [("CONSOLIDATION", [⟨"X", some "Gross basis"⟩])] "CONSOLIDATION"
      ["non consolidated", "non-consolidated"] ["N", "NC"] true = Except.ok none := by
  have h := findCode_no_match [("CONSOLIDATION", [⟨"X", some "Gross basis"⟩])]
    "CONSOLIDATION" ["non consolidated", "non-consolidated"] ["N", "NC"]
    ⟨"X", some "Gross basis"⟩ [] (by decide) (by decide) (by decide)
  refine ⟨?_, h.1⟩
  rw [h.2]
  decide

/-- C8 counterexample.  The claim says the label stage matches a code
whose RAW code string equals the (normalized) pattern.  On the code
(X, Gross basis) with pattern x, the claim condition claimLabelCond is
false — the raw code X does not equal the pattern x and the label does
not contain it — yet the matcher returns X, because the source compares
the LOWERCASED code string with the normalized pattern. -/
theorem findCode_label_stage_counterexample :
    findCodeByLabel [("D", [⟨"X", some "Gross basis"⟩])] "D" ["x"] [] true =
      Except.ok (some "X") ∧
    claimLabelCond ["x"] ⟨"X", some "Gross basis"⟩ = false := by decide

/-- C8 as amended.  When no preferred code matches, the matcher returns
the first code in declared order satisfying labelPred — normalized label
contains a non-empty normalized pattern, or the LOWERCASED code string
equals the normalized pattern — and otherwise falls back to none or the
no-match error. -/
theorem findCode_label_stage (dimValues : List (String × List CatCode))
    (dimId : String) (patterns preferredCodes : List String)
    (allowMissing : Bool) (v0 : CatCode) (vs : List CatCode)
    (hv : (dimValues.lookup dimId).getD [] = v0 :: vs)
    (hpref : ∀ w ∈ v0 :: vs, prefPred preferredCodes w = false) :
    findCodeByLabel dimValues dimId patterns preferredCodes allowMissing =
      (match (v0 :: vs).find? (labelPred patterns) with
       | some v => Except.ok (some v.code)
       | none => if allowMissing then Except.ok none
           else Except.error (.noMatch dimId (sampleOf (v0 :: vs)))) := by
  have hfp : (v0 :: vs).find? (prefPred preferredCodes) = none :=
    List.find?_eq_none.mpr (fun x hx => by simp [hpref x hx])
  cases hfl : (v0 :: vs).find? (labelPred patterns) with
  | none => simp [findCodeByLabel, hv, hfp, hfl]
  | some v => simp [findCodeByLabel, hv, hfp, hfl]

/-- Witness for the amended C8: pattern N matches the code N through the
lowercased-code comparison even though the label does not match. -/
theorem findCode_label_stage_witness :
    findCodeByLabel [("D", [⟨"N", some "zzz"⟩])] "D" ["N"] [] false =
      Except.ok (some "N") := by
  have h := findCode_label_stage [("D", [⟨"N", some "zzz"⟩])] "D" ["N"] [] false
    ⟨"N", some "zzz"⟩ [] (by decide) (by decide)
  rw [h]
  decide

/-- C9.  A dimension id that is absent from the catalog, or present with
an empty code list, short-circuits the matcher before the preferred-code
and pattern stages (the result does not depend on either list): none
under allowMissing, else the distinct dimension-not-found error, which
carries no candidate sample — it is a different constructor from the
no-match error. -/
theorem findCode_dim_not_found (dimValues : List (String × List CatCode))
    (dimId : String) (h : (dimValues.lookup dimId).getD [] = [])
    (patterns preferredCodes : List String) :
    findCodeByLabel dimValues dimId patterns preferredCodes true = Except.ok none ∧
    findCodeByLabel dimValues dimId patterns preferredCodes false =
      Except.error (.dimNotFound dimId) ∧
    (∀ sample, FindCodeError.dimNotFound dimId ≠ FindCodeError.noMatch dimId sample) :=
  ⟨by simp [findCodeByLabel, h], by simp [findCodeByLabel, h], fun sample => by simp⟩

/-- Witness for C9: an empty dimension and a dimension id missing from
the catalog entirely. -/
theorem findCode_dim_not_found_witness :
    findCodeByLabel [("EMPTY", [])] "EMPTY" ["annual"] ["A"] true = Except.ok none ∧
    findCodeByLabel [("EMPTY", [])] "MISSING" ["annual"] ["A"] false =
      Except.error (.dimNotFound "MISSING") :=
  ⟨(findCode_dim_not_found [("EMPTY", [])] "EMPTY" (by decide) ["annual"] ["A"]).1,
   (findCode_dim_not_found [("EMPTY", [])] "MISSING" (by decide) ["annual"] ["A"]).2.1⟩

/-- Zipping ignores the second list beyond the length of the first. -/
theorem zip_eq_zip_take {α β : Type} : ∀ (l1 : List α) (l2 : List β),
    l1.zip l2 = l1.zip (l2.take l1.length)
  | [], _ => by simp
  | _ :: _, [] => by simp
  | a :: as, b :: bs => by simpa using zip_eq_zip_take as bs

/-- When every consulted (dimension, index) pair decodes, the column loop
never raises: it returns some final row dict. -/
theorem rowCols_total (dimValues : List (String × List (Option String × Option String)))
    (dimRename : List (String × String)) :
    ∀ (ps : List (String × Int)) (row : List (String × Option String)),
    (∀ pr ∈ ps, indexToCode dimValues pr.1 pr.2 ≠ none) →
    ∃ cols, rowCols dimValues dimRename row ps = Except.ok cols
  | [], row, _ => ⟨row, rfl⟩
  | (d, i) :: rest, row, h => by
    rcases hic : indexToCode dimValues d i with - | ⟨c, l⟩
    · exact absurd hic (h (d, i) (by simp))
    · obtain ⟨cols, hc⟩ := rowCols_total dimValues dimRename rest
        (dictInsert (dictInsert row (outName dimRename d) c)
          (outName dimRename d ++ "_label") l)
        (fun pr hpr => h pr (by simp [hpr]))
      exact ⟨cols, by simp [rowCols, hic, hc]⟩

/-- The column loop reads the dimension-value map only through lookup of
the consulted dimension ids, so two maps agreeing on those lookups give
the same rows. -/
theorem rowCols_congr (dv1 dv2 : List (String × List (Option String × Option String)))
    (dimRename : List (String × String)) :
    ∀ (ps : List (String × Int)) (row : List (String × Option String)),
    (∀ pr ∈ ps, dv1.lookup pr.1 = dv2.lookup pr.1) →
    rowCols dv1 dimRename row ps = rowCols dv2 dimRename row ps
  | [], _, _ => rfl
  | (d, i) :: rest, row, h => by
    have h0 : dv1.lookup d = dv2.lookup d := h (d, i) (by simp)
    have hic : indexToCode dv1 d i = indexToCode dv2 d i := by
      simp [indexToCode, h0]
    cases hx : indexToCode dv2 d i with
    | none => simp [rowCols, hic, hx]
    | some cl =>
      rcases cl with ⟨c, l⟩
      simp [rowCols, hic, hx,
        rowCols_congr dv1 dv2 dimRename rest _
          (fun pr hpr => h pr (by simp [hpr]))]

/-- Truncating the first list at the second list length does not change
the zip. -/
theorem zip_take_left {α β : Type} : ∀ (l1 : List α) (l2 : List β),
    (l1.take l2.length).zip l2 = l1.zip l2
  | [], _ => by simp
  | _ :: _, [] => by simp
  | a :: as, b :: bs => by simpa using zip_take_left as bs

/-- The first component of a zip element lies within the leading part of
the first list consumed by the zip. -/
theorem zip_fst_mem_take {α β : Type} : ∀ (l1 : List α) (l2 : List β) (pr : α × β),
    pr ∈ l1.zip l2 → pr.1 ∈ l1.take l2.length
  | [], _, _ => by simp
  | _ :: _, [], _ => by simp
  | a :: as, b :: bs, pr => by
    intro hm
    rw [List.length_cons, List.take_succ_cons]
    rcases List.mem_cons.mp hm with h1 | h2
    · simp [h1]
    · exact List.mem_cons.mpr (Or.inr (zip_fst_mem_take as bs pr h2))

/-- Looking a key up in a prefix of an association list agrees with the
full list whenever the key occurs in that prefix. -/
theorem lookup_take_of_mem {β : Type} : ∀ (l : List (String × β)) (m : Nat) (id : String),
    id ∈ (l.take m).map Prod.fst → (l.take m).lookup id = l.lookup id
  | [], _, _ => by simp
  | _ :: _, 0, _ => by simp
  | (k, v) :: rest, m + 1, id => by
    intro hm
    rw [List.take_succ_cons] at hm ⊢
    by_cases hk : id = k
    · subst hk
      simp [List.lookup]
    · have hm2 : id ∈ (rest.take m).map Prod.fst := by
        rw [List.map_take]
        rcases List.mem_cons.mp (by simpa using hm) with h1 | h2
        · exact absurd h1 hk
        · exact h2
      simp [List.lookup, hk, lookup_take_of_mem rest m id hm2]

/-- C10.  The decoder pairs index tuples with the declared dimensions
positionally and truncates at the shorter side: indices beyond the
dimension list are ignored (the decode equals the decode of the truncated
key), a shorter tuple decodes exactly as if the trailing dimensions were
absent (the decode equals the decode over the truncated dimension list,
so the row simply lacks the trailing dimensions' code and label columns),
and no arity-mismatch error exists — with every consulted index decodable
the decode returns exactly one row. -/
theorem sdmx_arity_mismatch {α : Type}
    (dims : List (String × List (Option String × Option String)))
    (dimRename : List (String × String)) (key : List Int) (obs : ObsCell α)
    (h : ∀ pr ∈ (dims.map Prod.fst).zip key, indexToCode dims pr.1 pr.2 ≠ none) :
    sdmxJsonToTidy ⟨dims, [(key, obs)]⟩ dimRename =
      sdmxJsonToTidy ⟨dims, [(key.take dims.length, obs)]⟩ dimRename ∧
    sdmxJsonToTidy ⟨dims, [(key, obs)]⟩ dimRename =
      sdmxJsonToTidy ⟨dims.take key.length, [(key, obs)]⟩ dimRename ∧
    ∃ row, sdmxJsonToTidy ⟨dims, [(key, obs)]⟩ dimRename = Except.ok [row] := by
  refine ⟨?_, ?_, ?_⟩
  · have hzip : (dims.map Prod.fst).zip key =
        (dims.map Prod.fst).zip (key.take dims.length) := by
      rw [zip_eq_zip_take (dims.map Prod.fst) key, List.length_map]
    simp only [sdmxJsonToTidy, tidyRows, hzip]
  · have hids : (dims.take key.length).map Prod.fst =
        (dims.map Prod.fst).take key.length := by
      rw [List.map_take]
    have hz : ((dims.take key.length).map Prod.fst).zip key =
        (dims.map Prod.fst).zip key := by
      rw [hids, zip_take_left]
    have hcongr : rowCols dims dimRename [] ((dims.map Prod.fst).zip key) =
        rowCols (dims.take key.length) dimRename []
          ((dims.map Prod.fst).zip key) := by
      apply rowCols_congr
      intro pr hpr
      have hmem : pr.1 ∈ (dims.take key.length).map Prod.fst := by
        rw [hids]
        exact zip_fst_mem_take (dims.map Prod.fst) key pr hpr
      exact (lookup_take_of_mem dims key.length pr.1 hmem).symm
    simp only [sdmxJsonToTidy, tidyRows, hz, hcongr]
  · obtain ⟨cols, hc⟩ := rowCols_total dims dimRename
      ((dims.map Prod.fst).zip key) [] h
    exact ⟨⟨cols, cellValue obs⟩, by simp [sdmxJsonToTidy, tidyRows, hc]⟩

/-- Witness for C10, under a rename map sending both dimensions to one
output name: a one-index key against two declared dimensions decodes
exactly as its truncation does, and exactly as if the unconsulted second
dimension were absent. -/
theorem sdmx_arity_mismatch_witness :
    (sdmxJsonToTidy (α := Int) ⟨c10Dims, [([0], .scalar 7)]⟩ [("A", "x"), ("B", "x")] =
      sdmxJsonToTidy (α := Int) ⟨c10Dims, [([0].take c10Dims.length, .scalar 7)]⟩
        [("A", "x"), ("B", "x")]) ∧
    (sdmxJsonToTidy (α := Int) ⟨c10Dims, [([0], .scalar 7)]⟩ [("A", "x"), ("B", "x")] =
      sdmxJsonToTidy (α := Int) ⟨c10Dims.take 1, [([0], .scalar 7)]⟩
        [("A", "x"), ("B", "x")]) := by
  have h := sdmx_arity_mismatch (α := Int) c10Dims [("A", "x"), ("B", "x")] [0]
    (.scalar 7) (by decide)
  exact ⟨h.1, h.2.1⟩

/-- C2 counterexample.  A 429 response carrying Retry-After 3 does NOT
cause a 3-second pause: the source clamps the wait below by 10 seconds,
so the only sleep before the successful second attempt is 10 seconds. -/
theorem retryAfter_counterexample :
    (getTextWithRetry c2Oracle c2Oracle false "u" 10).sleeps = [10] ∧
    (getTextWithRetry c2Oracle c2Oracle false "u" 10).result = Except.ok "ok" ∧
    waitSeconds (some "3") 0 = 10 ∧ (10 : Nat) ≠ 3 := by decide

/-- C2 as amended.  When the first attempt gets a 429 whose Retry-After
header is a digit string, the sleep before the next attempt is the parsed
value clamped below by 10 seconds — max(value, 10) — taking the place of
the exponential default. -/
theorem retryAfter_clamped (oracle : Nat → String → HttpResponse)
    (url s : String) (m : Nat) (h429 : (oracle 0 url).status = 429)
    (hra : (oracle 0 url).retryAfter = some s) (hd : pyIsDigit s = true) :
    (getTextWithRetry oracle oracle false url (m + 2)).sleeps.head? =
      some (max (pyToNat s) 10) := by
  have hne : s ≠ "" := by
    intro he
    subst he
    exact absurd hd (by decide)
  have hlt : 0 + 1 < m + 2 := by omega
  simp [getTextWithRetry, getTextLoop, h429, hra, hlt, waitSeconds, hne, hd]

/-- Witness for the amended C2 at the Retry-After 3 oracle. -/
theorem retryAfter_clamped_witness :
    (getTextWithRetry c2Oracle c2Oracle false "u" 10).sleeps.head? =
      some (max (pyToNat "3") 10) :=
  retryAfter_clamped c2Oracle "u" "3" 8 (by decide) (by decide) (by decide)

/-- A retrying GET whose first response is a success issues exactly one
network request, no sleeps, and returns that response body. -/
theorem getTextWithRetry_ok (oracle anon : Nat → String → HttpResponse)
    (url : String) (m : Nat) (hm : m ≠ 0) (h : (oracle 0 url).status < 400) :
    getTextWithRetry oracle anon false url m =
      ⟨Except.ok (oracle 0 url).body, 1, []⟩ := by
  cases m with
  | zero => exact absurd rfl hm
  | succ k =>
    have h1 : ¬ ((oracle 0 url).status = 401 ∧ false = true) := by simp
    have h2 : ¬ ((oracle 0 url).status = 429 ∧ 0 + 1 < k + 1) := by
      rintro ⟨h429, -⟩
      omega
    have h3 : ¬ (400 ≤ (oracle 0 url).status) := by omega
    simp only [getTextWithRetry, getTextLoop, if_neg h1, if_neg h2, if_neg h3]

/-- Trying a URL list whose first URL answers successfully stops at that
URL with one network call. -/
theorem tryUrls_first_ok (oracle anon : Nat → String → HttpResponse)
    (url : String) (rest : List String) (h : (oracle 0 url).status < 400) :
    tryUrls oracle anon false (url :: rest) 0 none =
      .success (oracle 0 url).body 1 := by
  simp [tryUrls, getTextWithRetry_ok oracle anon url 10 (by omega) h]

/-- C3 counterexample.  For a flow reference without the
agency,dsd@dataflow,version shape (here FOO), fetch_structure succeeds
through the plain structure endpoint but does NOT write the cache, so a
second fetch with the refresh flag unset issues a second network call:
two calls in total, not one. -/
theorem fetchStructure_no_cache_counterexample :
    fetchStructure c3Oracle c3Oracle false "0" none "FOO" noExtractF noExtractA =
      (Except.ok "XMLBODY", none, 1) ∧
    fetchStructure c3Oracle c3Oracle false "0"
      (fetchStructure c3Oracle c3Oracle false "0" none "FOO" noExtractF noExtractA).2.1
      "FOO" noExtractF noExtractA = (Except.ok "XMLBODY", none, 1) ∧
    (1 + 1 : Nat) ≠ 1 := by decide

/-- C3 as amended.  For a flow reference carrying a non-empty DSD id,
when the first candidate datastructure URL answers successfully the first
fetch issues exactly one network call and persists the document, and a
second fetch with the refresh flag unset is served from the cache with
zero network calls and a byte-identical document. -/
theorem fetchStructure_cache_idempotent (oracle : Nat → String → HttpResponse)
    (flowRef : String) (p : FlowParts) (d : String)
    (extractForDf : String → String → Option DsdRefR)
    (extractAny : String → Option DsdRefR)
    (hparse : parseFlowRef flowRef = some p) (hdsd : p.dsdId = some d)
    (hne : d ≠ "")
    (hok : (oracle 0 (dsUrlComma p.agencyId d p.version)).status < 400) :
    fetchStructure oracle oracle false "0" none flowRef extractForDf extractAny =
      (Except.ok (oracle 0 (dsUrlComma p.agencyId d p.version)).body,
       some (oracle 0 (dsUrlComma p.agencyId d p.version)).body, 1) ∧
    fetchStructure oracle oracle false "0"
      (some (oracle 0 (dsUrlComma p.agencyId d p.version)).body) flowRef
      extractForDf extractAny =
      (Except.ok (oracle 0 (dsUrlComma p.agencyId d p.version)).body,
       some (oracle 0 (dsUrlComma p.agencyId d p.version)).body, 0) := by
  constructor
  · simp [fetchStructure, fetchStructureFresh, hparse, hdsd, hne,
      tryUrls_first_ok oracle oracle (dsUrlComma p.agencyId d p.version) _ hok]
  · simp [fetchStructure, show isTruthy "0" = false from by decide]

/-- Witness for the amended C3 at a concrete flow reference and an
always-200 network. -/
theorem fetchStructure_cache_idempotent_witness :
    fetchStructure c3Oracle c3Oracle false "0" none "A,D@F,1" noExtractF noExtractA =
      (Except.ok "XMLBODY", some "XMLBODY", 1) ∧
    fetchStructure c3Oracle c3Oracle false "0" (some "XMLBODY") "A,D@F,1"
      noExtractF noExtractA = (Except.ok "XMLBODY", some "XMLBODY", 0) :=
  fetchStructure_cache_idempotent c3Oracle "A,D@F,1" ⟨"A", "1", some "D", some "F"⟩
    "D" noExtractF noExtractA (by decide) (by decide) (by decide) (by decide)

end OecdPull
